import Mathlib

/-!
Verification of the Jira MCP server (a TypeScript repository consisting of
a type-definition module, an MCP dispatcher module, and a JiraClient REST
wrapper).  JavaScript runtime values that flow into request bodies are
modelled by the inductive type `Json` below; JavaScript objects are
modelled as association lists with unique keys, and JavaScript property
assignment (including the assignments performed by `Object.assign`) is
modelled by `setField`.  Strings that only undergo concatenation and
trailing-slash stripping (the URL arithmetic of the client constructor)
are modelled as lists of characters.
-/

set_option maxHeartbeats 1000000

/-- A JSON/JavaScript value, as produced by the argument parser and
consumed by `JSON.stringify` when the client serialises request bodies.
Numbers are modelled as integers; none of the dispatched payloads perform
numeric computation. -/
inductive Json where
  | null : Json
  | str : String → Json
  | num : Int → Json
  | bool : Bool → Json
  | arr : List Json → Json
  | obj : List (String × Json) → Json

/-- The raw argument bag of a tool call: a JavaScript object, i.e. an
association list from property names to values. -/
abbrev JArgs := List (String × Json)

/-- JavaScript property assignment `o[k] = v` on an object represented as
an association list: overwrite the existing binding if the key is present,
otherwise append a new binding. -/
def setField (fs : List (String × Json)) (k : String) (v : Json) :
    List (String × Json) :=
  if fs.any (fun p => p.1 == k) then
    fs.map (fun p => bif p.1 == k then (k, v) else p)
  else
    fs ++ [(k, v)]

/-- The call `Object.assign(fs, cf)`: assign every property of `cf` onto
`fs`, in order. -/
def objAssign (fs : List (String × Json)) (cf : List (String × Json)) :
    List (String × Json) :=
  cf.foldl (fun acc p => setField acc p.1 p.2) fs

/-- JavaScript truthiness of a `string | undefined` value: `undefined` and
the empty string are falsy. -/
def jsTruthyStr : Option String → Bool
  | none => false
  | some s => !(s == "")

/-- Conditional assignment of an optional string parameter `v`, as in
the source pattern of testing `v` and then assigning `mk v` under key `k`
(JavaScript truthiness: the assignment is skipped for the empty string). -/
def setIfStr (fs : List (String × Json)) (k : String) (v : Option String)
    (mk : String → Json) : List (String × Json) :=
  match v with
  | some s => if s = "" then fs else setField fs k (mk s)
  | none => fs

/-- Conditional assignment of an optional array parameter `v` under key
`k` (JavaScript arrays are always truthy, even when empty). -/
def setIfList (fs : List (String × Json)) (k : String)
    (v : Option (List String)) (mk : List String → Json) :
    List (String × Json) :=
  match v with
  | some l => setField fs k (mk l)
  | none => fs

/-- Mapping a list of names to single-property name-reference objects:
the array used for the components, fixVersions and versions fields. -/
def mkNameArr (l : List String) : Json :=
  Json.arr (l.map (fun n => Json.obj [("name", Json.str n)]))

/-- The `fields` object built by the `jira_create_issue` dispatcher branch
(the basic create tool): mandatory project/summary/issuetype entries
followed by conditionally spread optional entries. -/
def buildCreateIssueFields (projectKey summary issueType : String)
    (description priority assignee : Option String)
    (labels : Option (List String)) : List (String × Json) :=
  [("project", Json.obj [("key", Json.str projectKey)]),
   ("summary", Json.str summary),
   ("issuetype", Json.obj [("name", Json.str issueType)])]
  ++ (match description with
      | some d => if d = "" then [] else [("description", Json.str d)]
      | none => [])
  ++ (match priority with
      | some p => if p = "" then [] else
          [("priority", Json.obj [("name", Json.str p)])]
      | none => [])
  ++ (match assignee with
      | some a => if a = "" then [] else
          [("assignee", Json.obj [("name", Json.str a)])]
      | none => [])
  ++ (match labels with
      | some l => [("labels", Json.arr (l.map Json.str))]
      | none => [])

/-- The `fields` object built by the `jira_update_issue` dispatcher branch
(the basic update tool): every entry is conditionally spread, so an absent
or falsy parameter contributes no key. -/
def buildUpdateIssueFields (summary description priority assignee : Option String)
    (labels : Option (List String)) : List (String × Json) :=
  (match summary with
   | some s => if s = "" then [] else [("summary", Json.str s)]
   | none => [])
  ++ (match description with
      | some d => if d = "" then [] else [("description", Json.str d)]
      | none => [])
  ++ (match priority with
      | some p => if p = "" then [] else
          [("priority", Json.obj [("name", Json.str p)])]
      | none => [])
  ++ (match assignee with
      | some a => if a = "" then [] else
          [("assignee", Json.obj [("name", Json.str a)])]
      | none => [])
  ++ (match labels with
      | some l => [("labels", Json.arr (l.map Json.str))]
      | none => [])

/-- The field map assembled by the `jira_create_issue_advanced` dispatcher
branch: mandatory entries, then conditional scalar assignments, then the
name-list fields (affectsVersions stored under the key `versions`), and
finally `Object.assign(fields, customFields)`. -/
def buildCreateAdvancedFields (projectKey summary issueType : String)
    (description priority assignee reporter : Option String)
    (labels components fixVersions affectsVersions : Option (List String))
    (customFields : Option (List (String × Json))) : List (String × Json) :=
  let f0 : List (String × Json) :=
    [("project", Json.obj [("key", Json.str projectKey)]),
     ("summary", Json.str summary),
     ("issuetype", Json.obj [("name", Json.str issueType)])]
  let f1 := setIfStr f0 "description" description Json.str
  let f2 := setIfStr f1 "priority" priority
    (fun p => Json.obj [("name", Json.str p)])
  let f3 := setIfStr f2 "assignee" assignee
    (fun a => Json.obj [("name", Json.str a)])
  let f4 := setIfStr f3 "reporter" reporter
    (fun r => Json.obj [("name", Json.str r)])
  let f5 := setIfList f4 "labels" labels (fun l => Json.arr (l.map Json.str))
  let f6 := setIfList f5 "components" components mkNameArr
  let f7 := setIfList f6 "fixVersions" fixVersions mkNameArr
  let f8 := setIfList f7 "versions" affectsVersions mkNameArr
  match customFields with
  | some cf => objAssign f8 cf
  | none => f8

/-- The field map assembled by the `jira_update_issue_advanced` dispatcher
branch: starts from an empty object, then conditional scalar assignments,
the name-list fields (affectsVersions stored under the key `versions`),
and finally `Object.assign(fields, customFields)`. -/
def buildUpdateAdvancedFields
    (summary description priority assignee : Option String)
    (labels components fixVersions affectsVersions : Option (List String))
    (customFields : Option (List (String × Json))) : List (String × Json) :=
  let f0 : List (String × Json) := []
  let f1 := setIfStr f0 "summary" summary Json.str
  let f2 := setIfStr f1 "description" description Json.str
  let f3 := setIfStr f2 "priority" priority
    (fun p => Json.obj [("name", Json.str p)])
  let f4 := setIfStr f3 "assignee" assignee
    (fun a => Json.obj [("name", Json.str a)])
  let f5 := setIfList f4 "labels" labels (fun l => Json.arr (l.map Json.str))
  let f6 := setIfList f5 "components" components mkNameArr
  let f7 := setIfList f6 "fixVersions" fixVersions mkNameArr
  let f8 := setIfList f7 "versions" affectsVersions mkNameArr
  match customFields with
  | some cf => objAssign f8 cf
  | none => f8

section AssocLemmas

/-- Looking up a key in a concatenation falls through to the second list
when the first list does not contain it. -/
theorem lookup_append (l₁ l₂ : List (String × Json)) (k : String) :
    (l₁ ++ l₂).lookup k =
      match l₁.lookup k with
      | some v => some v
      | none => l₂.lookup k := by
  induction l₁ with
  | nil => simp [List.lookup]
  | cons p rest ih =>
    cases p with
    | mk k₀ v₀ =>
      cases hbeq : (k == k₀) <;> simp [List.lookup, hbeq, ih]

/-- If no entry of `fs` has key `k`, then looking up `k` fails. -/
theorem lookup_eq_none_of_not_any (fs : List (String × Json)) (k : String)
    (h : fs.any (fun p => p.1 == k) = false) : fs.lookup k = none := by
  induction fs with
  | nil => rfl
  | cons p rest ih =>
    simp only [List.any_cons, Bool.or_eq_false_iff] at h
    cases p with
    | mk k₀ v₀ =>
      have h0 : k₀ ≠ k := by simpa [beq_eq_false_iff_ne] using h.1
      have h1 : (k == k₀) = false :=
        beq_eq_false_iff_ne.mpr (fun hk => h0 hk.symm)
      simp [List.lookup, h1, ih h.2]

/-- Overwriting every binding of key `k` and then looking up `k` yields
the new value exactly when `k` was bound. -/
theorem lookup_map_overwrite (fs : List (String × Json)) (k : String)
    (v : Json) :
    (fs.map (fun p => bif p.1 == k then (k, v) else p)).lookup k =
      cond (fs.any (fun p => p.1 == k)) (some v) none := by
  induction fs with
  | nil => rfl
  | cons p rest ih =>
    cases p with
    | mk k₀ v₀ =>
      simp only [List.map_cons, List.any_cons]
      cases hbeq : (k₀ == k) with
      | false =>
        have hkk : (k == k₀) = false := by
          simp only [beq_eq_false_iff_ne] at hbeq ⊢
          exact fun h => hbeq h.symm
        simp only [Bool.false_or, cond_false]
        simp only [List.lookup, hkk]
        exact ih
      | true =>
        simp only [Bool.true_or, cond_true]
        simp only [List.lookup, beq_self_eq_true]

/-- Overwriting the bindings of key `k` does not change the lookup of a
different key. -/
theorem lookup_map_overwrite_ne (fs : List (String × Json)) (k k' : String)
    (v : Json) (hne : k' ≠ k) :
    (fs.map (fun p => bif p.1 == k then (k, v) else p)).lookup k' =
      fs.lookup k' := by
  induction fs with
  | nil => rfl
  | cons p rest ih =>
    cases p with
    | mk k₀ v₀ =>
      simp only [List.map_cons]
      cases hbeq : (k₀ == k) with
      | true =>
        have hk₀ : k₀ = k := by simpa using hbeq
        subst hk₀
        simp only [cond_true, List.lookup,
          beq_eq_false_iff_ne.mpr hne]
        exact ih
      | false =>
        simp only [cond_false, List.lookup]
        cases hbeq' : (k' == k₀)
        · exact ih
        · rfl

/-- Looking up the key just assigned by `setField` yields the assigned
value. -/
theorem lookup_setField_self (fs : List (String × Json)) (k : String)
    (v : Json) : (setField fs k v).lookup k = some v := by
  unfold setField
  by_cases h : fs.any (fun p => p.1 == k) = true
  · rw [if_pos h, lookup_map_overwrite, h, cond_true]
  · have h' : fs.any (fun p => p.1 == k) = false := by
      cases hany : fs.any (fun p => p.1 == k)
      · rfl
      · exact absurd hany h
    rw [if_neg h, lookup_append, lookup_eq_none_of_not_any fs k h']
    simp [List.lookup]

/-- Assigning a different key leaves a lookup unchanged. -/
theorem lookup_setField_ne (fs : List (String × Json)) (k k' : String)
    (v : Json) (hne : k' ≠ k) :
    (setField fs k v).lookup k' = fs.lookup k' := by
  unfold setField
  by_cases h : fs.any (fun p => p.1 == k) = true
  · rw [if_pos h]
    exact lookup_map_overwrite_ne fs k k' v hne
  · rw [if_neg h, lookup_append]
    cases hfs : fs.lookup k' with
    | some v' => rfl
    | none => simp [List.lookup, beq_eq_false_iff_ne.mpr hne]

/-- Unfolding one assignment step of `Object.assign`. -/
theorem objAssign_cons (fs : List (String × Json)) (p : String × Json)
    (rest : List (String × Json)) :
    objAssign fs (p :: rest) = objAssign (setField fs p.1 p.2) rest := rfl

/-- Assigning from a source whose keys all differ from `k` leaves the
lookup of `k` unchanged. -/
theorem lookup_objAssign_not_key (fs cf : List (String × Json)) (k : String)
    (h : ∀ p ∈ cf, p.1 ≠ k) :
    (objAssign fs cf).lookup k = fs.lookup k := by
  induction cf generalizing fs with
  | nil => rfl
  | cons p rest ih =>
    rw [objAssign_cons,
      ih (setField fs p.1 p.2) (fun q hq => h q (List.mem_cons_of_mem _ hq))]
    exact lookup_setField_ne fs p.1 k p.2
      (fun hk => h p (List.mem_cons_self _ _) hk.symm)

/-- Overlay precedence of `objAssign`: when the source object has unique
keys, every binding of the source is the final binding of the result. -/
theorem lookup_objAssign_mem (fs cf : List (String × Json)) (k : String)
    (v : Json) (hnd : (cf.map Prod.fst).Nodup) (hmem : (k, v) ∈ cf) :
    (objAssign fs cf).lookup k = some v := by
  induction cf generalizing fs with
  | nil => cases hmem
  | cons p rest ih =>
    rw [List.map_cons, List.nodup_cons] at hnd
    rcases List.mem_cons.mp hmem with heq | hmem'
    · subst heq
      rw [objAssign_cons,
        lookup_objAssign_not_key (setField fs (k, v).1 (k, v).2) rest k
          (fun q hq hqk =>
            hnd.1 (by simpa [hqk] using List.mem_map_of_mem Prod.fst hq))]
      exact lookup_setField_self fs k v
    · rw [objAssign_cons]
      exact ih (setField fs p.1 p.2) hnd.2 hmem'

/-- Conditional list assignment to a different key leaves a lookup
unchanged. -/
theorem lookup_setIfList_ne (fs : List (String × Json)) (k k' : String)
    (v : Option (List String)) (mk : List String → Json) (hne : k' ≠ k) :
    (setIfList fs k v mk).lookup k' = fs.lookup k' := by
  cases v with
  | none => rfl
  | some l => exact lookup_setField_ne fs k k' (mk l) hne

end AssocLemmas

/-- The request body of `JiraClient.assignIssue`:
`JSON.stringify` of an object whose single `name` property carries the
username, or the JSON null when the username is null.  A null username is
serialised literally, never dropped. -/
def assignIssueBody (username : Option String) : Json :=
  Json.obj [("name", match username with
                     | some s => Json.str s
                     | none => Json.null)]

/-- The confirmation text returned by the `jira_assign_issue` dispatcher
branch: the ternary selects the wording by JavaScript truthiness of the
assignee value. -/
def assignReplyText (issueKey : String) (assignee : Option String) : String :=
  match assignee with
  | some s =>
      if s = "" then "Issue " ++ issueKey ++ " unassigned"
      else "Issue " ++ issueKey ++ " assigned to " ++ s
  | none => "Issue " ++ issueKey ++ " unassigned"

/-- The structured append-comment block added by
`JiraClient.transitionIssue` when a comment is supplied. -/
def updateCommentBlock (comment : String) : Json :=
  Json.obj [("comment",
    Json.arr [Json.obj [("add", Json.obj [("body", Json.str comment)])]])]

/-- The request body of `JiraClient.transitionIssue`: the transition-id
wrapper, with the `update` property assigned only when the comment is
truthy. -/
def transitionIssueBody (transitionId : String) (comment : Option String) :
    List (String × Json) :=
  let base : List (String × Json) :=
    [("transition", Json.obj [("id", Json.str transitionId)])]
  match comment with
  | some c => if c = "" then base else base ++ [("update", updateCommentBlock c)]
  | none => base

/-- The configuration passed to the `JiraClient` constructor.  The two
string settings are modelled as lists of characters so that the
trailing-slash arithmetic can be reasoned about. -/
structure JiraConfig where
  baseUrl : List Char
  pat : List Char

/-- The replace call of the constructor, whose regular expression is
anchored on one trailing slash: remove the final character exactly when
it is a slash. -/
def stripTrailingSlash (s : List Char) : List Char :=
  if s.getLast? = some '/' then s.dropLast else s

/-- The state stored by the `JiraClient` class: the normalised base URL
and the fixed header set. -/
structure JiraClient where
  baseUrl : List Char
  headers : List (List Char × List Char)

/-- The `JiraClient` constructor: strip one trailing slash from the base
URL and fix the bearer, content-type and accept headers. -/
def mkJiraClient (config : JiraConfig) : JiraClient :=
  { baseUrl := stripTrailingSlash config.baseUrl,
    headers :=
      [("Authorization".data, "Bearer ".data ++ config.pat),
       ("Content-Type".data, "application/json".data),
       ("Accept".data, "application/json".data)] }

/-- The versioned REST namespace inserted by `JiraClient.request`. -/
def restApiRoot : List Char := "/rest/api/2".data

/-- The full endpoint URL built by `JiraClient.request`. -/
def requestUrl (client : JiraClient) (endpoint : List Char) : List Char :=
  client.baseUrl ++ restApiRoot ++ endpoint

/-- A Jira project as deserialised from the project-list endpoint. -/
structure JiraProject where
  id : String
  key : String
  name : String
  self : String
  projectTypeKey : String

/-- The authenticated user as deserialised from the myself endpoint. -/
structure JiraUser where
  self : String
  key : String
  name : String
  emailAddress : String
  displayName : String
  active : Bool

/-- A resource descriptor returned by the resource-enumeration handler. -/
structure Resource where
  uri : String
  name : String
  description : String
  mimeType : String
deriving DecidableEq

/-- The static configuration resource returned by the catch branch of the
resource-enumeration handler. -/
def configResourceFallback : Resource :=
  { uri := "jira://config",
    name := "Jira Configuration",
    description := "Current Jira server configuration",
    mimeType := "application/json" }

/-- The `ListResourcesRequestSchema` handler.  The two awaited client
lookups are modelled by their outcomes: the handler first awaits the
project list, then the current user; if either await throws, the catch
branch answers with the single static configuration resource. -/
def listResources (projects : Except String (List JiraProject))
    (currentUser : Except String JiraUser) : List Resource :=
  match projects with
  | Except.error _ => [configResourceFallback]
  | Except.ok ps =>
    match currentUser with
    | Except.error _ => [configResourceFallback]
    | Except.ok u =>
      [{ uri := "jira://config",
         name := "Jira Configuration",
         description := "Current Jira server configuration and connection info",
         mimeType := "application/json" },
       { uri := "jira://current-user",
         name := "Current User",
         description := "Currently authenticated Jira user",
         mimeType := "application/json" },
       { uri := "jira://priorities",
         name := "Priorities",
         description := "All available issue priorities",
         mimeType := "application/json" },
       { uri := "jira://statuses",
         name := "Statuses",
         description := "All available issue statuses",
         mimeType := "application/json" },
       { uri := "jira://fields",
         name := "Fields",
         description := "All available fields including custom fields",
         mimeType := "application/json" },
       { uri := "jira://link-types",
         name := "Issue Link Types",
         description := "All available issue link types",
         mimeType := "application/json" },
       { uri := "jira://projects",
         name := "All Projects",
         description := "List of all " ++ toString ps.length ++ " Jira projects",
         mimeType := "application/json" }]
      ++ (ps.take 20).map (fun project =>
        { uri := "jira://project/" ++ project.key,
          name := "Project: " ++ project.key,
          description := project.name ++ " - versions, components, and issue types",
          mimeType := "application/json" })
      ++ [{ uri := "jira://my-issues",
            name := "My Issues",
            description := "Issues assigned to " ++ u.displayName,
            mimeType := "application/json" }]

/-- One entry of the issue-type list answered by the createmeta
issue-types endpoint. -/
structure MetaIssueType where
  id : String
  name : String
  description : String
  subtask : Bool
deriving DecidableEq

/-- One allowed value of a field in the createmeta field schema. -/
structure AllowedValue where
  id : String
  name : String
  value : Option String
deriving DecidableEq

/-- One field entry answered by the createmeta fields endpoint. -/
structure MetaFieldInfo where
  fieldId : String
  name : String
  required : Bool
  allowedValues : Option (List AllowedValue)
deriving DecidableEq

/-- The remote answers consumed by `JiraClient.getCreateMeta`: the
issue-type list for the project, and for each issue-type id the field
list (the per-issue-type fetches are independent awaits). -/
structure CreateMetaRemote where
  issueTypes : List MetaIssueType
  fieldsFor : String → List MetaFieldInfo

/-- One field entry of the assembled createmeta result. -/
structure CreateMetaField where
  fieldId : String
  name : String
  required : Bool
  hasAllowedValues : Bool
  allowedValues : Option (List AllowedValue)
deriving DecidableEq

/-- One issue-type entry of the assembled createmeta result. -/
structure CreateMetaIssueTypeEntry where
  id : String
  name : String
  fields : List CreateMetaField
deriving DecidableEq

/-- The assembled createmeta result. -/
structure CreateMetaResult where
  projectKey : String
  issueTypes : List CreateMetaIssueTypeEntry
deriving DecidableEq

/-- JavaScript `toLowerCase` on the character lists underlying strings
(structurally recursive, unlike the position-indexed library map). -/
def strToLower (s : String) : String :=
  String.mk (s.data.map Char.toLower)

/-- The method `JiraClient.getCreateMeta`: fetch the issue types, filter them
case-insensitively by the optional issue-type name (the ternary uses
JavaScript truthiness, so an empty-string name skips the filter), and
assemble the per-issue-type field lists.  A field is flagged
`hasAllowedValues` by double negation of its allowed-value list. -/
def getCreateMeta (remote : CreateMetaRemote) (projectKey : String)
    (issueTypeName : Option String) : CreateMetaResult :=
  let issueTypes := remote.issueTypes
  let filteredTypes :=
    match issueTypeName with
    | some n =>
        if n = "" then issueTypes
        else issueTypes.filter (fun t => strToLower t.name == strToLower n)
    | none => issueTypes
  { projectKey := projectKey,
    issueTypes := filteredTypes.map (fun issueType =>
      { id := issueType.id,
        name := issueType.name,
        fields := (remote.fieldsFor issueType.id).map (fun f =>
          { fieldId := f.fieldId,
            name := f.name,
            required := f.required,
            hasAllowedValues := f.allowedValues.isSome,
            allowedValues := f.allowedValues }) }) }

/-- The method `JiraClient.getFieldOptions`: run `getCreateMeta` with the issue-type
filter, take the first resulting issue type, find the requested field and
answer its allowed values, defaulting to the empty list.  In the source
the optional-chaining guard on the fields property only fires when no
issue type is present, because `getCreateMeta` always sets the property. -/
def getFieldOptions (remote : CreateMetaRemote)
    (projectKey issueTypeName fieldKey : String) : List AllowedValue :=
  let meta := getCreateMeta remote projectKey (some issueTypeName)
  match meta.issueTypes.head? with
  | none => []
  | some issueType =>
    match issueType.fields.find? (fun f => f.fieldId == fieldKey) with
    | none => []
    | some f => f.allowedValues.getD []

/-- The shape of one property in a tool input schema, covering exactly the
zod combinators used by the tool schemas: required string, optional
string, required nullable string, optional number with a default,
required array of strings, optional array of strings, and optional
record. -/
inductive ZField where
  | str : ZField
  | strOpt : ZField
  | strNullable : ZField
  | numOptDefault : Int → ZField
  | arrStr : ZField
  | arrStrOpt : ZField
  | recordOpt : ZField

/-- Whether a JSON value is a string. -/
def isStrJson : Json → Bool
  | Json.str _ => true
  | _ => false

/-- Whether a JSON value is an array of strings. -/
def isArrStrJson : Json → Bool
  | Json.arr xs => xs.all isStrJson
  | _ => false

/-- The validation issues one schema property raises against the value
found in the argument bag (absent property modelled as `none`).  Models
the zod library: a missing required property and a wrongly typed property
each contribute one issue; the issue messages of the library are
abbreviated. -/
def fieldIssues : ZField → Option Json → List String
  | ZField.str, none => ["Required"]
  | ZField.str, some j => if isStrJson j then [] else ["Invalid type"]
  | ZField.strOpt, none => []
  | ZField.strOpt, some j => if isStrJson j then [] else ["Invalid type"]
  | ZField.strNullable, none => ["Required"]
  | ZField.strNullable, some j =>
      match j with
      | Json.null => []
      | Json.str _ => []
      | _ => ["Invalid type"]
  | ZField.numOptDefault _, none => []
  | ZField.numOptDefault _, some j =>
      match j with
      | Json.num _ => []
      | _ => ["Invalid type"]
  | ZField.arrStr, none => ["Required"]
  | ZField.arrStr, some j => if isArrStrJson j then [] else ["Invalid type"]
  | ZField.arrStrOpt, none => []
  | ZField.arrStrOpt, some j => if isArrStrJson j then [] else ["Invalid type"]
  | ZField.recordOpt, none => []
  | ZField.recordOpt, some j =>
      match j with
      | Json.obj _ => []
      | _ => ["Invalid type"]

/-- All validation issues a schema raises against an argument bag, in
property order. -/
def zodIssues (schema : List (String × ZField)) (args : JArgs) :
    List String :=
  (schema.map (fun f => fieldIssues f.2 (args.lookup f.1))).flatten

/-- The parse call of a schema: succeed when no issue is raised,
otherwise throw the collected issues. -/
def zparse (schema : List (String × ZField)) (args : JArgs) :
    Except (List String) JArgs :=
  if zodIssues schema args = [] then Except.ok args
  else Except.error (zodIssues schema args)

def GetIssueSchema : List (String × ZField) :=
  [("issueKey", ZField.str), ("expand", ZField.arrStrOpt)]

def SearchIssuesSchema : List (String × ZField) :=
  [("jql", ZField.str), ("startAt", ZField.numOptDefault 0),
   ("maxResults", ZField.numOptDefault 50), ("fields", ZField.arrStrOpt)]

def CreateIssueSchema : List (String × ZField) :=
  [("projectKey", ZField.str), ("summary", ZField.str),
   ("issueType", ZField.str), ("description", ZField.strOpt),
   ("priority", ZField.strOpt), ("assignee", ZField.strOpt),
   ("labels", ZField.arrStrOpt)]

def UpdateIssueSchema : List (String × ZField) :=
  [("issueKey", ZField.str), ("summary", ZField.strOpt),
   ("description", ZField.strOpt), ("priority", ZField.strOpt),
   ("assignee", ZField.strOpt), ("labels", ZField.arrStrOpt)]

def AddCommentSchema : List (String × ZField) :=
  [("issueKey", ZField.str), ("body", ZField.str)]

def TransitionIssueSchema : List (String × ZField) :=
  [("issueKey", ZField.str), ("transitionId", ZField.str),
   ("comment", ZField.strOpt)]

def AssignIssueSchema : List (String × ZField) :=
  [("issueKey", ZField.str), ("assignee", ZField.strNullable)]

def GetCommentsSchema : List (String × ZField) :=
  [("issueKey", ZField.str)]

def GetTransitionsSchema : List (String × ZField) :=
  [("issueKey", ZField.str)]

def DeleteIssueSchema : List (String × ZField) :=
  [("issueKey", ZField.str)]

def GetProjectSchema : List (String × ZField) :=
  [("projectKey", ZField.str)]

def SearchUsersSchema : List (String × ZField) :=
  [("query", ZField.str)]

def LinkIssuesSchema : List (String × ZField) :=
  [("inwardIssue", ZField.str), ("outwardIssue", ZField.str),
   ("linkType", ZField.str)]

def AddWatcherSchema : List (String × ZField) :=
  [("issueKey", ZField.str), ("username", ZField.str)]

def GetCreateMetaSchema : List (String × ZField) :=
  [("projectKey", ZField.str), ("issueType", ZField.strOpt)]

def GetEditMetaSchema : List (String × ZField) :=
  [("issueKey", ZField.str)]

def GetProjectVersionsSchema : List (String × ZField) :=
  [("projectKey", ZField.str)]

def GetProjectComponentsSchema : List (String × ZField) :=
  [("projectKey", ZField.str)]

def CreateIssueAdvancedSchema : List (String × ZField) :=
  [("projectKey", ZField.str), ("summary", ZField.str),
   ("issueType", ZField.str), ("description", ZField.strOpt),
   ("priority", ZField.strOpt), ("assignee", ZField.strOpt),
   ("reporter", ZField.strOpt), ("labels", ZField.arrStrOpt),
   ("components", ZField.arrStrOpt), ("fixVersions", ZField.arrStrOpt),
   ("affectsVersions", ZField.arrStrOpt), ("customFields", ZField.recordOpt)]

def UpdateIssueAdvancedSchema : List (String × ZField) :=
  [("issueKey", ZField.str), ("summary", ZField.strOpt),
   ("description", ZField.strOpt), ("priority", ZField.strOpt),
   ("assignee", ZField.strOpt), ("labels", ZField.arrStrOpt),
   ("components", ZField.arrStrOpt), ("fixVersions", ZField.arrStrOpt),
   ("affectsVersions", ZField.arrStrOpt), ("customFields", ZField.recordOpt)]

def GetFieldOptionsSchema : List (String × ZField) :=
  [("projectKey", ZField.str), ("issueType", ZField.str),
   ("fieldKey", ZField.str)]

/-- The input schema the dispatcher parses with for each tool name; the
six metadata tools with an empty declared schema perform no parse. -/
def schemaOf : String → Option (List (String × ZField))
  | "jira_get_issue" => some GetIssueSchema
  | "jira_search_issues" => some SearchIssuesSchema
  | "jira_create_issue" => some CreateIssueSchema
  | "jira_update_issue" => some UpdateIssueSchema
  | "jira_delete_issue" => some DeleteIssueSchema
  | "jira_assign_issue" => some AssignIssueSchema
  | "jira_get_comments" => some GetCommentsSchema
  | "jira_add_comment" => some AddCommentSchema
  | "jira_get_transitions" => some GetTransitionsSchema
  | "jira_transition_issue" => some TransitionIssueSchema
  | "jira_get_project" => some GetProjectSchema
  | "jira_search_users" => some SearchUsersSchema
  | "jira_link_issues" => some LinkIssuesSchema
  | "jira_add_watcher" => some AddWatcherSchema
  | "jira_get_create_meta" => some GetCreateMetaSchema
  | "jira_get_edit_meta" => some GetEditMetaSchema
  | "jira_get_project_versions" => some GetProjectVersionsSchema
  | "jira_get_project_components" => some GetProjectComponentsSchema
  | "jira_get_field_options" => some GetFieldOptionsSchema
  | "jira_create_issue_advanced" => some CreateIssueAdvancedSchema
  | "jira_update_issue_advanced" => some UpdateIssueAdvancedSchema
  | _ => none

/-- The registered tool names, in registration order. -/
def toolNames : List String :=
  ["jira_get_issue", "jira_search_issues", "jira_create_issue",
   "jira_update_issue", "jira_delete_issue", "jira_assign_issue",
   "jira_get_comments", "jira_add_comment", "jira_get_transitions",
   "jira_transition_issue", "jira_get_projects", "jira_get_project",
   "jira_search_users", "jira_get_current_user", "jira_link_issues",
   "jira_add_watcher", "jira_get_priorities", "jira_get_statuses",
   "jira_get_create_meta", "jira_get_edit_meta",
   "jira_get_project_versions", "jira_get_project_components",
   "jira_get_fields", "jira_get_field_options",
   "jira_get_issue_link_types", "jira_create_issue_advanced",
   "jira_update_issue_advanced"]

/-- A call of one `JiraClient` method, together with its arguments:
the observable remote-client interaction of one dispatched tool call. -/
inductive ClientCall where
  | getIssue : String → Option (List String) → ClientCall
  | searchIssues : String → Int → Int → Option (List String) → ClientCall
  | createIssue : List (String × Json) → ClientCall
  | updateIssue : String → List (String × Json) → ClientCall
  | deleteIssue : String → ClientCall
  | assignIssue : String → Option String → ClientCall
  | getComments : String → ClientCall
  | addComment : String → String → ClientCall
  | getTransitions : String → ClientCall
  | transitionIssue : String → String → Option String → ClientCall
  | getProjects : ClientCall
  | getProject : String → ClientCall
  | searchUsers : String → ClientCall
  | getCurrentUser : ClientCall
  | linkIssues : String → String → String → ClientCall
  | addWatcher : String → String → ClientCall
  | getPriorities : ClientCall
  | getStatuses : ClientCall
  | getCreateMeta : String → Option String → ClientCall
  | getEditMeta : String → ClientCall
  | getProjectVersions : String → ClientCall
  | getProjectComponents : String → ClientCall
  | getFields : ClientCall
  | getFieldOptions : String → String → String → ClientCall
  | getIssueLinkTypes : ClientCall
  | createIssueRaw : List (String × Json) → ClientCall
  | updateIssueRaw : String → List (String × Json) → ClientCall

/-- The single text block of a successful tool reply: either the
pretty-printed JSON serialisation of a client result, or a fixed
confirmation message. -/
inductive ToolReply where
  | json : Json → ToolReply
  | message : String → ToolReply

/-- The protocol error codes the dispatcher distinguishes. -/
inductive McpErrorCode where
  | invalidParams : McpErrorCode
  | methodNotFound : McpErrorCode
  | internalError : McpErrorCode
  | invalidRequest : McpErrorCode
deriving DecidableEq

/-- A typed protocol error. -/
structure McpError where
  code : McpErrorCode
  message : String

/-- An exception thrown inside the dispatcher switch: either a zod
validation error carrying its issues, or an already typed protocol
error. -/
inductive Thrown where
  | zod : List String → Thrown
  | mcp : McpErrorCode → String → Thrown

/-- Read a validated required string property. -/
def argStr (args : JArgs) (k : String) : String :=
  match args.lookup k with
  | some (Json.str s) => s
  | _ => ""

/-- Read a validated optional string property. -/
def argStrOpt (args : JArgs) (k : String) : Option String :=
  match args.lookup k with
  | some (Json.str s) => some s
  | _ => none

/-- Read a validated required nullable string property (null becomes
`none`). -/
def argStrNullable (args : JArgs) (k : String) : Option String :=
  match args.lookup k with
  | some (Json.str s) => some s
  | _ => none

/-- Read a validated optional number property, applying the schema
default when absent. -/
def argNumD (args : JArgs) (k : String) (d : Int) : Int :=
  match args.lookup k with
  | some (Json.num n) => n
  | _ => d

/-- Read a validated optional array-of-strings property. -/
def argStrArrOpt (args : JArgs) (k : String) : Option (List String) :=
  match args.lookup k with
  | some (Json.arr xs) =>
      some (xs.map (fun j => match j with | Json.str s => s | _ => ""))
  | _ => none

/-- Read a validated optional record property. -/
def argObjOpt (args : JArgs) (k : String) : Option (List (String × Json)) :=
  match args.lookup k with
  | some (Json.obj fs) => some fs
  | _ => none

/-- The switch of the `CallToolRequestSchema` handler.  Each branch
parses its schema (throwing the zod issues on failure, before any client
interaction — hence the empty trace) and then performs its client call,
recorded in the trace.  The `client` oracle supplies the remote JSON
results.  The catch-all branch throws the method-not-found error. -/
def callToolInner (client : ClientCall → Json) (name : String)
    (args : JArgs) : Except Thrown ToolReply × List ClientCall :=
  match name with
  | "jira_get_issue" =>
    match zparse GetIssueSchema args with
    | Except.error issues => (Except.error (Thrown.zod issues), [])
    | Except.ok a =>
      let c := ClientCall.getIssue (argStr a "issueKey") (argStrArrOpt a "expand")
      (Except.ok (ToolReply.json (client c)), [c])
  | "jira_search_issues" =>
    match zparse SearchIssuesSchema args with
    | Except.error issues => (Except.error (Thrown.zod issues), [])
    | Except.ok a =>
      let c := ClientCall.searchIssues (argStr a "jql") (argNumD a "startAt" 0)
        (argNumD a "maxResults" 50) (argStrArrOpt a "fields")
      (Except.ok (ToolReply.json (client c)), [c])
  | "jira_create_issue" =>
    match zparse CreateIssueSchema args with
    | Except.error issues => (Except.error (Thrown.zod issues), [])
    | Except.ok a =>
      let c := ClientCall.createIssue (buildCreateIssueFields
        (argStr a "projectKey") (argStr a "summary") (argStr a "issueType")
        (argStrOpt a "description") (argStrOpt a "priority")
        (argStrOpt a "assignee") (argStrArrOpt a "labels"))
      (Except.ok (ToolReply.json (client c)), [c])
  | "jira_update_issue" =>
    match zparse UpdateIssueSchema args with
    | Except.error issues => (Except.error (Thrown.zod issues), [])
    | Except.ok a =>
      let c := ClientCall.updateIssue (argStr a "issueKey")
        (buildUpdateIssueFields (argStrOpt a "summary")
          (argStrOpt a "description") (argStrOpt a "priority")
          (argStrOpt a "assignee") (argStrArrOpt a "labels"))
      let _ := client c
      (Except.ok (ToolReply.message
        ("Issue " ++ argStr a "issueKey" ++ " updated successfully")), [c])
  | "jira_delete_issue" =>
    match zparse DeleteIssueSchema args with
    | Except.error issues => (Except.error (Thrown.zod issues), [])
    | Except.ok a =>
      let c := ClientCall.deleteIssue (argStr a "issueKey")
      let _ := client c
      (Except.ok (ToolReply.message
        ("Issue " ++ argStr a "issueKey" ++ " deleted successfully")), [c])
  | "jira_assign_issue" =>
    match zparse AssignIssueSchema args with
    | Except.error issues => (Except.error (Thrown.zod issues), [])
    | Except.ok a =>
      let c := ClientCall.assignIssue (argStr a "issueKey")
        (argStrNullable a "assignee")
      let _ := client c
      (Except.ok (ToolReply.message
        (assignReplyText (argStr a "issueKey") (argStrNullable a "assignee"))),
       [c])
  | "jira_get_comments" =>
    match zparse GetCommentsSchema args with
    | Except.error issues => (Except.error (Thrown.zod issues), [])
    | Except.ok a =>
      let c := ClientCall.getComments (argStr a "issueKey")
      (Except.ok (ToolReply.json (client c)), [c])
  | "jira_add_comment" =>
    match zparse AddCommentSchema args with
    | Except.error issues => (Except.error (Thrown.zod issues), [])
    | Except.ok a =>
      let c := ClientCall.addComment (argStr a "issueKey") (argStr a "body")
      (Except.ok (ToolReply.json (client c)), [c])
  | "jira_get_transitions" =>
    match zparse GetTransitionsSchema args with
    | Except.error issues => (Except.error (Thrown.zod issues), [])
    | Except.ok a =>
      let c := ClientCall.getTransitions (argStr a "issueKey")
      (Except.ok (ToolReply.json (client c)), [c])
  | "jira_transition_issue" =>
    match zparse TransitionIssueSchema args with
    | Except.error issues => (Except.error (Thrown.zod issues), [])
    | Except.ok a =>
      let c := ClientCall.transitionIssue (argStr a "issueKey")
        (argStr a "transitionId") (argStrOpt a "comment")
      let _ := client c
      (Except.ok (ToolReply.message
        ("Issue " ++ argStr a "issueKey" ++ " transitioned successfully")),
       [c])
  | "jira_get_projects" =>
    let c := ClientCall.getProjects
    (Except.ok (ToolReply.json (client c)), [c])
  | "jira_get_project" =>
    match zparse GetProjectSchema args with
    | Except.error issues => (Except.error (Thrown.zod issues), [])
    | Except.ok a =>
      let c := ClientCall.getProject (argStr a "projectKey")
      (Except.ok (ToolReply.json (client c)), [c])
  | "jira_search_users" =>
    match zparse SearchUsersSchema args with
    | Except.error issues => (Except.error (Thrown.zod issues), [])
    | Except.ok a =>
      let c := ClientCall.searchUsers (argStr a "query")
      (Except.ok (ToolReply.json (client c)), [c])
  | "jira_get_current_user" =>
    let c := ClientCall.getCurrentUser
    (Except.ok (ToolReply.json (client c)), [c])
  | "jira_link_issues" =>
    match zparse LinkIssuesSchema args with
    | Except.error issues => (Except.error (Thrown.zod issues), [])
    | Except.ok a =>
      let c := ClientCall.linkIssues (argStr a "inwardIssue")
        (argStr a "outwardIssue") (argStr a "linkType")
      let _ := client c
      (Except.ok (ToolReply.message
        ("Issues " ++ argStr a "inwardIssue" ++ " and "
          ++ argStr a "outwardIssue" ++ " linked with type \""
          ++ argStr a "linkType" ++ "\"")), [c])
  | "jira_add_watcher" =>
    match zparse AddWatcherSchema args with
    | Except.error issues => (Except.error (Thrown.zod issues), [])
    | Except.ok a =>
      let c := ClientCall.addWatcher (argStr a "issueKey")
        (argStr a "username")
      let _ := client c
      (Except.ok (ToolReply.message
        ("Added " ++ argStr a "username" ++ " as watcher to "
          ++ argStr a "issueKey")), [c])
  | "jira_get_priorities" =>
    let c := ClientCall.getPriorities
    (Except.ok (ToolReply.json (client c)), [c])
  | "jira_get_statuses" =>
    let c := ClientCall.getStatuses
    (Except.ok (ToolReply.json (client c)), [c])
  | "jira_get_create_meta" =>
    match zparse GetCreateMetaSchema args with
    | Except.error issues => (Except.error (Thrown.zod issues), [])
    | Except.ok a =>
      let c := ClientCall.getCreateMeta (argStr a "projectKey")
        (argStrOpt a "issueType")
      (Except.ok (ToolReply.json (client c)), [c])
  | "jira_get_edit_meta" =>
    match zparse GetEditMetaSchema args with
    | Except.error issues => (Except.error (Thrown.zod issues), [])
    | Except.ok a =>
      let c := ClientCall.getEditMeta (argStr a "issueKey")
      (Except.ok (ToolReply.json (client c)), [c])
  | "jira_get_project_versions" =>
    match zparse GetProjectVersionsSchema args with
    | Except.error issues => (Except.error (Thrown.zod issues), [])
    | Except.ok a =>
      let c := ClientCall.getProjectVersions (argStr a "projectKey")
      (Except.ok (ToolReply.json (client c)), [c])
  | "jira_get_project_components" =>
    match zparse GetProjectComponentsSchema args with
    | Except.error issues => (Except.error (Thrown.zod issues), [])
    | Except.ok a =>
      let c := ClientCall.getProjectComponents (argStr a "projectKey")
      (Except.ok (ToolReply.json (client c)), [c])
  | "jira_get_fields" =>
    let c := ClientCall.getFields
    (Except.ok (ToolReply.json (client c)), [c])
  | "jira_get_field_options" =>
    match zparse GetFieldOptionsSchema args with
    | Except.error issues => (Except.error (Thrown.zod issues), [])
    | Except.ok a =>
      let c := ClientCall.getFieldOptions (argStr a "projectKey")
        (argStr a "issueType") (argStr a "fieldKey")
      (Except.ok (ToolReply.json (client c)), [c])
  | "jira_get_issue_link_types" =>
    let c := ClientCall.getIssueLinkTypes
    (Except.ok (ToolReply.json (client c)), [c])
  | "jira_create_issue_advanced" =>
    match zparse CreateIssueAdvancedSchema args with
    | Except.error issues => (Except.error (Thrown.zod issues), [])
    | Except.ok a =>
      let c := ClientCall.createIssueRaw (buildCreateAdvancedFields
        (argStr a "projectKey") (argStr a "summary") (argStr a "issueType")
        (argStrOpt a "description") (argStrOpt a "priority")
        (argStrOpt a "assignee") (argStrOpt a "reporter")
        (argStrArrOpt a "labels") (argStrArrOpt a "components")
        (argStrArrOpt a "fixVersions") (argStrArrOpt a "affectsVersions")
        (argObjOpt a "customFields"))
      (Except.ok (ToolReply.json (client c)), [c])
  | "jira_update_issue_advanced" =>
    match zparse UpdateIssueAdvancedSchema args with
    | Except.error issues => (Except.error (Thrown.zod issues), [])
    | Except.ok a =>
      let c := ClientCall.updateIssueRaw (argStr a "issueKey")
        (buildUpdateAdvancedFields (argStrOpt a "summary")
          (argStrOpt a "description") (argStrOpt a "priority")
          (argStrOpt a "assignee") (argStrArrOpt a "labels")
          (argStrArrOpt a "components") (argStrArrOpt a "fixVersions")
          (argStrArrOpt a "affectsVersions") (argObjOpt a "customFields"))
      let _ := client c
      (Except.ok (ToolReply.message
        ("Issue " ++ argStr a "issueKey" ++ " updated successfully")), [c])
  | _ => (Except.error (Thrown.mcp McpErrorCode.methodNotFound
      ("Unknown tool: " ++ name)), [])

/-- The `CallToolRequestSchema` handler with its catch clause: a thrown
zod error is reported as one invalid-parameters protocol error joining
all issue messages; a thrown protocol error is rethrown. -/
def callTool (client : ClientCall → Json) (name : String) (args : JArgs) :
    Except McpError ToolReply × List ClientCall :=
  match callToolInner client name args with
  | (Except.ok r, calls) => (Except.ok r, calls)
  | (Except.error (Thrown.zod issues), calls) =>
    (Except.error
      { code := McpErrorCode.invalidParams,
        message := "Invalid parameters: " ++ String.intercalate ", " issues },
     calls)
  | (Except.error (Thrown.mcp c m), calls) =>
    (Except.error { code := c, message := m }, calls)

/-- Reducing a conditional list assignment with a provided value. -/
theorem setIfList_some (fs : List (String × Json)) (k : String)
    (l : List String) (mk : List String → Json) :
    setIfList fs k (some l) mk = setField fs k (mk l) := rfl

/-- Claim C1: for the jira_create_issue_advanced and
jira_update_issue_advanced tools, the outgoing field map is built by
conditionally setting the named scalar fields, mapping the components,
fixVersions and affectsVersions name lists (the latter under the key
`versions`) to lists of name-reference objects, and finally overlaying the
caller-supplied custom-field map; consequently, for every key bound by
the custom-field map the outgoing value is the custom-field value. -/
theorem advanced_customFields_overlay_wins
    (projectKey createSummary issueType : String)
    (updateSummary description priority assignee reporter : Option String)
    (labels components fixVersions affectsVersions : Option (List String))
    (cf : List (String × Json)) (k : String) (v : Json)
    (hnd : (cf.map Prod.fst).Nodup) (hmem : (k, v) ∈ cf) :
    (buildCreateAdvancedFields projectKey createSummary issueType description
        priority assignee reporter labels components fixVersions
        affectsVersions (some cf)).lookup k = some v ∧
    (buildUpdateAdvancedFields updateSummary description priority assignee
        labels components fixVersions affectsVersions
        (some cf)).lookup k = some v ∧
    (∀ cs vs : List String,
      (buildCreateAdvancedFields projectKey createSummary issueType
          description priority assignee reporter labels (some cs) fixVersions
          (some vs) none).lookup "components" = some (mkNameArr cs) ∧
      (buildCreateAdvancedFields projectKey createSummary issueType
          description priority assignee reporter labels (some cs) fixVersions
          (some vs) none).lookup "versions" = some (mkNameArr vs)) := by
  refine ⟨?_, ?_, ?_⟩
  · exact lookup_objAssign_mem _ cf k v hnd hmem
  · exact lookup_objAssign_mem _ cf k v hnd hmem
  · intro cs vs
    constructor
    · show (setIfList (setIfList (setIfList _ "components" (some cs)
          mkNameArr) "fixVersions" fixVersions mkNameArr) "versions"
          (some vs) mkNameArr).lookup "components" = some (mkNameArr cs)
      rw [setIfList_some, lookup_setField_ne _ _ _ _ (by decide),
        lookup_setIfList_ne _ _ _ _ _ (by decide), setIfList_some]
      exact lookup_setField_self _ _ _
    · show (setIfList _ "versions" (some vs) mkNameArr).lookup "versions"
          = some (mkNameArr vs)
      rw [setIfList_some]
      exact lookup_setField_self _ _ _

/-- Witness for C1 at a concrete input: a custom-field overlay entry for
`components` shadows the structured components parameter. -/
theorem advanced_customFields_overlay_wins_witness :
    (buildCreateAdvancedFields "PROJ" "A summary" "Bug" none none none none
        none (some ["A"]) none none
        (some [("components", Json.str "shadow")])).lookup "components"
      = some (Json.str "shadow") := by
  have h := advanced_customFields_overlay_wins "PROJ" "A summary" "Bug"
    none none none none none none (some ["A"]) none none
    [("components", Json.str "shadow")] "components" (Json.str "shadow")
    (by decide) (List.mem_singleton.mpr rfl)
  exact h.1

/-- Claim C2: a jira_assign_issue invocation with a null assignee sends
the body whose single `name` property is the literal JSON null — the null
is present in the serialised object, never omitted. -/
theorem assignIssue_null_body_literal :
    assignIssueBody none = Json.obj [("name", Json.null)] := rfl

/-- Claim C3: a jira_update_issue invocation carrying only issueKey and
summary produces a fields object with no key other than `summary`. -/
theorem update_summary_only_payload (summary : Option String) :
    (buildUpdateIssueFields summary none none none none).all
      (fun p => p.1 == "summary") = true := by
  cases summary with
  | none => rfl
  | some s => by_cases h : s = "" <;> simp [buildUpdateIssueFields, h]

/-- Witness for C3 at a concrete input. -/
theorem update_summary_only_payload_witness :
    (buildUpdateIssueFields (some "New summary") none none none none).all
      (fun p => p.1 == "summary") = true :=
  update_summary_only_payload (some "New summary")

/-- Claim C6: when either live lookup of the resource-enumeration handler
fails, the handler answers with exactly the one static configuration
resource instead of propagating the failure. -/
theorem listResources_degrades_to_config
    (projects : Except String (List JiraProject))
    (currentUser : Except String JiraUser)
    (h : (∃ e, projects = Except.error e) ∨
         (∃ e, currentUser = Except.error e)) :
    listResources projects currentUser = [configResourceFallback] := by
  rcases h with ⟨e, he⟩ | ⟨e, he⟩
  · subst he; rfl
  · subst he
    cases projects with
    | error e' => rfl
    | ok ps => rfl

/-- A concrete authenticated user fixture. -/
def demoCurrentUser : JiraUser :=
  { self := "u", key := "u", name := "u",
    emailAddress := "u@example.com", displayName := "User U",
    active := true }

/-- Witness for C6 at a concrete input. -/
theorem listResources_degrades_to_config_witness :
    listResources (Except.error "network failure")
      (Except.ok demoCurrentUser) = [configResourceFallback] :=
  listResources_degrades_to_config _ _ (Or.inl ⟨"network failure", rfl⟩)

/-- A concrete allowed value for the createmeta fixture. -/
def demoAllowedValue : AllowedValue :=
  { id := "100", name := "1.0", value := none }

/-- A concrete issue type for the createmeta fixture. -/
def demoIssueType : MetaIssueType :=
  { id := "10001", name := "Bug", description := "A bug", subtask := false }

/-- A concrete createmeta field for the fixture. -/
def demoMetaField : MetaFieldInfo :=
  { fieldId := "fixVersions", name := "Fix versions", required := false,
    allowedValues := some [demoAllowedValue] }

/-- A concrete createmeta fixture: one issue type named Bug whose field
schema carries one allowed value for fixVersions. -/
def demoCreateMetaRemote : CreateMetaRemote :=
  { issueTypes := [demoIssueType], fieldsFor := fun _ => [demoMetaField] }

/-- Counterexample to C7 as stated: with the empty-string issue-type name
no issue type matches the case-insensitive filter, yet getFieldOptions is
not empty, because the truthiness ternary skips the filter entirely for
an empty-string name and the first issue type of the unfiltered list is
consulted. -/
theorem getFieldOptions_zero_match_cex :
    (demoCreateMetaRemote.issueTypes.all
      (fun t => !(strToLower t.name == strToLower ""))) = true ∧
    getFieldOptions demoCreateMetaRemote "DEMO" "" "fixVersions" ≠ [] := by
  constructor
  · decide
  · decide

/-- Claim C7 (amended): for every getFieldOptions call with a nonempty
issue-type name in which the underlying createmeta fetches succeed but
zero issue types match the case-insensitive filter, the result is the
empty list, never an error. -/
theorem getFieldOptions_zero_match_empty (remote : CreateMetaRemote)
    (projectKey issueTypeName fieldKey : String)
    (hne : issueTypeName ≠ "")
    (hzero : ∀ t ∈ remote.issueTypes,
        strToLower t.name ≠ strToLower issueTypeName) :
    getFieldOptions remote projectKey issueTypeName fieldKey = [] := by
  unfold getFieldOptions getCreateMeta
  simp only []
  rw [if_neg hne]
  rw [List.filter_eq_nil_iff.mpr (fun t ht => by simpa using hzero t ht)]
  rfl

/-- Witness for the amended C7 at a concrete input. -/
theorem getFieldOptions_zero_match_empty_witness :
    getFieldOptions demoCreateMetaRemote "DEMO" "Task" "fixVersions" = [] :=
  getFieldOptions_zero_match_empty demoCreateMetaRemote "DEMO" "Task"
    "fixVersions" (by decide) (by decide)
/-- Claim C8: every transitionIssue body contains the transition-id
wrapper; the append-comment update block is present only when a comment
was supplied (and then carries exactly the structured block), and with no
comment the body has no update key. -/
theorem transitionIssue_body_update_only_with_comment
    (transitionId : String) (comment : Option String) :
    (transitionIssueBody transitionId comment).lookup "transition"
      = some (Json.obj [("id", Json.str transitionId)]) ∧
    ("update" ∈ (transitionIssueBody transitionId comment).map Prod.fst →
      ∃ c, comment = some c ∧
        (transitionIssueBody transitionId comment).lookup "update"
          = some (updateCommentBlock c)) ∧
    (comment = none →
      "update" ∉ (transitionIssueBody transitionId comment).map Prod.fst) := by
  cases comment with
  | none =>
    refine ⟨rfl, ?_, ?_⟩
    · intro h
      simp [transitionIssueBody] at h
    · intro _
      simp [transitionIssueBody]
  | some c =>
    by_cases hc : c = ""
    · subst hc
      refine ⟨rfl, ?_, ?_⟩
      · intro h
        simp [transitionIssueBody] at h
      · intro h
        exact Option.noConfusion h
    · refine ⟨?_, ?_, ?_⟩
      · simp [transitionIssueBody, hc, List.lookup]
      · intro _
        exact ⟨c, rfl, by simp [transitionIssueBody, hc, List.lookup]⟩
      · intro h
        exact Option.noConfusion h

/-- Witness for C8 at concrete inputs. -/
theorem transitionIssue_body_update_only_with_comment_witness :
    (transitionIssueBody "31" none).lookup "transition"
      = some (Json.obj [("id", Json.str "31")]) ∧
    "update" ∉ (transitionIssueBody "31" none).map Prod.fst :=
  ⟨(transitionIssue_body_update_only_with_comment "31" none).1,
   (transitionIssue_body_update_only_with_comment "31" none).2.2 rfl⟩

/-- Claim C9: the client stores at construction the base URL with one
trailing slash removed when present and no more than one, and every
request URL is the stored base URL, then the versioned REST namespace,
then the call path. -/
theorem requestUrl_construction (config : JiraConfig)
    (endpoint : List Char) :
    requestUrl (mkJiraClient config) endpoint
      = stripTrailingSlash config.baseUrl ++ restApiRoot ++ endpoint ∧
    (∀ s : List Char, stripTrailingSlash (s ++ ['/']) = s) ∧
    (∀ s : List Char, s.getLast? ≠ some '/' → stripTrailingSlash s = s) := by
  refine ⟨rfl, ?_, ?_⟩
  · intro s
    unfold stripTrailingSlash
    rw [if_pos (by rw [List.getLast?_concat]), List.dropLast_concat]
  · intro s h
    unfold stripTrailingSlash
    rw [if_neg h]

/-- A concrete client configuration fixture with a trailing slash. -/
def demoJiraConfig : JiraConfig :=
  { baseUrl := "https://jira.example.com/".data, pat := "token".data }

/-- Witness for C9 at a concrete input. -/
theorem requestUrl_construction_witness :
    requestUrl (mkJiraClient demoJiraConfig) "/myself".data
      = stripTrailingSlash "https://jira.example.com/".data ++ restApiRoot
        ++ "/myself".data ∧
    stripTrailingSlash ("https://jira.example.com".data ++ ['/'])
      = "https://jira.example.com".data :=
  ⟨(requestUrl_construction demoJiraConfig "/myself".data).1,
   (requestUrl_construction demoJiraConfig "/myself".data).2.1
     "https://jira.example.com".data⟩

/-- Claim C10: a jira_assign_issue invocation with the empty-string
assignee (accepted by the string-or-null schema) sends a body whose name
property is the empty string, yet the confirmation text is the
unassignment wording: the wording is decided by JavaScript truthiness of
the assignee, not by whether it is null. -/
theorem assign_empty_string_truthiness (issueKey : String) :
    assignIssueBody (some "") = Json.obj [("name", Json.str "")] ∧
    assignReplyText issueKey (some "")
      = "Issue " ++ issueKey ++ " unassigned" ∧
    jsTruthyStr (some "") = false ∧
    (some "" : Option String) ≠ none ∧
    (∀ a : Option String, jsTruthyStr a = false →
      assignReplyText issueKey a = "Issue " ++ issueKey ++ " unassigned") := by
  refine ⟨rfl, rfl, rfl, by simp, ?_⟩
  intro a ha
  cases a with
  | none => rfl
  | some s =>
    by_cases hs : s = ""
    · subst hs; rfl
    · exfalso
      simp [jsTruthyStr, hs] at ha

/-- Witness for C10 at a concrete input. -/
theorem assign_empty_string_truthiness_witness :
    assignReplyText "PROJ-1" (some "")
      = "Issue " ++ "PROJ-1" ++ " unassigned" :=
  ((assign_empty_string_truthiness "PROJ-1").2.2.2.2) (some "") rfl

/-- The catch clause maps an inner zod throw with an empty trace to the
aggregated invalid-parameters protocol error with an empty trace. -/
theorem callTool_zod (client : ClientCall → Json) (name : String)
    (args : JArgs) (issues : List String)
    (hinner : callToolInner client name args =
      (Except.error (Thrown.zod issues), [])) :
    callTool client name args =
      (Except.error
        { code := McpErrorCode.invalidParams,
          message := "Invalid parameters: "
            ++ String.intercalate ", " issues }, []) := by
  unfold callTool
  rw [hinner]

/-- Claim C4: a tool invocation whose argument bag fails the declared
input schema is answered by a single invalid-parameters error joining all
schema violation messages, and no client method is invoked. -/
theorem tool_validation_blocks_client_call (client : ClientCall → Json)
    (name : String) (args : JArgs) (schema : List (String × ZField))
    (hs : schemaOf name = some schema)
    (hbad : zodIssues schema args ≠ []) :
    callTool client name args =
      (Except.error
        { code := McpErrorCode.invalidParams,
          message := "Invalid parameters: "
            ++ String.intercalate ", " (zodIssues schema args) }, []) := by
  have hz : ∀ s, zodIssues s args ≠ [] →
      zparse s args = Except.error (zodIssues s args) := by
    intro s h
    unfold zparse
    rw [if_neg h]
  apply callTool_zod
  rw [schemaOf.eq_def] at hs
  split at hs
  all_goals first
    | exact Option.noConfusion hs
    | (injection hs with hseq; subst hseq;
       unfold callToolInner;
       rw [hz _ hbad];
       exact rfl)

/-- Witness for C4 at a concrete input: jira_get_issue with an empty
argument bag is missing the required issueKey. -/
theorem tool_validation_blocks_client_call_witness :
    callTool (fun _ => Json.null) "jira_get_issue" [] =
      (Except.error
        { code := McpErrorCode.invalidParams,
          message := "Invalid parameters: "
            ++ String.intercalate ", " (zodIssues GetIssueSchema []) }, []) :=
  tool_validation_blocks_client_call (fun _ => Json.null) "jira_get_issue"
    [] GetIssueSchema rfl (by decide)

/-- Claim C5: a tool-call request whose name is not registered is
answered by the method-not-found error, distinguished by its code from
the invalid-parameters and internal-error codes, and no client method is
invoked. -/
theorem tool_unknown_name_no_call (client : ClientCall → Json)
    (name : String) (args : JArgs) (hname : name ∉ toolNames) :
    callTool client name args =
      (Except.error
        { code := McpErrorCode.methodNotFound,
          message := "Unknown tool: " ++ name }, []) ∧
    McpErrorCode.methodNotFound ≠ McpErrorCode.invalidParams ∧
    McpErrorCode.methodNotFound ≠ McpErrorCode.internalError := by
  refine ⟨?_, by decide, by decide⟩
  have hinner : callToolInner client name args =
      (Except.error (Thrown.mcp McpErrorCode.methodNotFound
        ("Unknown tool: " ++ name)), []) := by
    rw [callToolInner.eq_def]
    split
    all_goals first
      | exact absurd (by decide) hname
      | rfl
  unfold callTool
  rw [hinner]

/-- Witness for C5 at a concrete input. -/
theorem tool_unknown_name_no_call_witness :
    callTool (fun _ => Json.null) "jira_rename_issue" [] =
      (Except.error
        { code := McpErrorCode.methodNotFound,
          message := "Unknown tool: " ++ "jira_rename_issue" }, []) :=
  (tool_unknown_name_no_call (fun _ => Json.null) "jira_rename_issue" []
    (by decide)).1
